import Mathlib

/-!
Shallow embedding of the `roman_datamodels` repository (datamodels.py,
units.py, generator/_adaptor.py) and verification of the specification
claims about it.  Python dictionaries are modelled as association lists,
Python exceptions as an `Err` sum via `Except`, the filesystem as an
association list from paths to written ASDF trees, and object identity
(where a claim depends on it) as a numeric object id threaded through an
allocation counter.
-/

namespace RomanDatamodels

/-! ## Association-list helpers (Python `dict` / attribute stores) -/

def alistLookup {α : Type} (k : String) : List (String × α) → Option α
  | [] => none
  | (k', v) :: t => if k' = k then some v else alistLookup k t

def alistInsert {α : Type} (k : String) (v : α) : List (String × α) → List (String × α)
  | [] => [(k, v)]
  | (k', v') :: t => if k' = k then (k, v) :: t else (k', v') :: alistInsert k v t

theorem alistLookup_insert_self {α : Type} (k : String) (v : α) :
    ∀ l : List (String × α), alistLookup k (alistInsert k v l) = some v := by
  intro l
  induction l with
  | nil => simp [alistInsert, alistLookup]
  | cons h t ih =>
    obtain ⟨k', v'⟩ := h
    by_cases hk : k' = k
    · simp [alistInsert, alistLookup, hk]
    · simp [alistInsert, alistLookup, hk, ih]

/-- Python `s.startswith('_')`: the string begins with an underscore. -/
def startsUnderscore (s : String) : Bool :=
  match s.data with
  | [] => false
  | c :: _ => c = '_'

/-! ## Path helpers: `os.path.split`, `os.path.splitext`, `os.path.join`
(CPython posixpath semantics, as far as `DataModel.save` exercises them). -/

def lastIdxOf (c : Char) : List Char → Option Nat
  | [] => none
  | x :: t =>
    match lastIdxOf c t with
    | some i => some (i + 1)
    | none => if x = c then some 0 else none

/-- Embedding of `os.path.splitext` restricted to a path tail (no directory separator):
split off the extension at the last dot, unless every character before that
dot is itself a dot (then the extension is empty). -/
def splitext (s : String) : String × String :=
  match lastIdxOf '.' s.data with
  | none => (s, "")
  | some i =>
    if (s.data.take i).all (· = '.') then (s, "")
    else (String.mk (s.data.take i), String.mk (s.data.drop i))

/-- Embedding of `os.path.split`: split at the final slash; the head keeps no trailing
slashes unless it consists only of slashes. -/
def posixSplit (p : String) : String × String :=
  match lastIdxOf '/' p.data with
  | none => ("", p)
  | some i =>
    let head := p.data.take (i + 1)
    let tail := p.data.drop (i + 1)
    let head' := if head.all (· = '/') then head
                 else (head.reverse.dropWhile (· = '/')).reverse
    (String.mk head', String.mk tail)

/-- Embedding of `os.path.join` for two components. -/
def posixJoin (a b : String) : String :=
  if b.data.head? = some '/' then b
  else if a = "" then b
  else if a.data.getLast? = some '/' then a ++ b
  else a ++ "/" ++ b

/-! ## Node and model classes (stnode tag classes and the wrapper classes
of datamodels.py).  `stnode` itself is not under src/; the glossary of the
spec describes a tagged node as "a typed in-memory object corresponding to
a schema-identified document fragment", so a `TaggedObjectNode` is modelled
from the spec as a node-type tag together with an attribute map. -/

inductive NodeType : Type
  | WfiImage | WfiScienceRaw | Ramp | RampFitOutput | Associations
  | ModelContainerNode | Guidewindow | FlatRef | DarkRef | DistortionRef
  | GainRef | LinearityRef | MaskRef | PixelareaRef | ReadnoiseRef
  | SaturationRef | SuperbiasRef | WfiImgPhotomRef
  | Unregistered (n : Nat)
  deriving DecidableEq, Repr

/-- Modelled from the spec: a tagged node ("a typed in-memory object
corresponding to a schema-identified document fragment") carries its
node-type tag and a flat attribute map; the concrete `stnode` module is not
under src/. -/
structure TaggedObjectNode : Type where
  ntype : NodeType
  attrs : List (String × Nat)
  deriving DecidableEq, Repr

inductive ModelClass : Type
  | DataModelBase | ImageModel | ScienceRawModel | RampModel
  | RampFitOutputModel | AssociationsModel | ModelContainer
  | GuidewindowModel | FlatRefModel | DarkRefModel | DistortionRefModel
  | GainRefModel | LinearityRefModel | MaskRefModel | PixelareaRefModel
  | ReadnoiseRefModel | SuperbiasRefModel | SaturationRefModel
  | WfiImgPhotomRefModel
  deriving DecidableEq, Repr

def clsName : ModelClass → String
  | .DataModelBase => "DataModel"
  | .ImageModel => "ImageModel"
  | .ScienceRawModel => "ScienceRawModel"
  | .RampModel => "RampModel"
  | .RampFitOutputModel => "RampFitOutputModel"
  | .AssociationsModel => "AssociationsModel"
  | .ModelContainer => "ModelContainer"
  | .GuidewindowModel => "GuidewindowModel"
  | .FlatRefModel => "FlatRefModel"
  | .DarkRefModel => "DarkRefModel"
  | .DistortionRefModel => "DistortionRefModel"
  | .GainRefModel => "GainRefModel"
  | .LinearityRefModel => "LinearityRefModel"
  | .MaskRefModel => "MaskRefModel"
  | .PixelareaRefModel => "PixelareaRefModel"
  | .ReadnoiseRefModel => "ReadnoiseRefModel"
  | .SuperbiasRefModel => "SuperbiasRefModel"
  | .SaturationRefModel => "SaturationRefModel"
  | .WfiImgPhotomRefModel => "WfiImgPhotomRefModel"

/-- The `model_registry` dict at the bottom of datamodels.py, as a function
from node classes to wrapper classes (`none` = class not a key). -/
def model_registry : NodeType → Option ModelClass
  | .WfiImage => some .ImageModel
  | .WfiScienceRaw => some .ScienceRawModel
  | .Ramp => some .RampModel
  | .RampFitOutput => some .RampFitOutputModel
  | .Associations => some .AssociationsModel
  | .ModelContainerNode => some .ModelContainer
  | .Guidewindow => some .GuidewindowModel
  | .FlatRef => some .FlatRefModel
  | .DarkRef => some .DarkRefModel
  | .DistortionRef => some .DistortionRefModel
  | .GainRef => some .GainRefModel
  | .LinearityRef => some .LinearityRefModel
  | .MaskRef => some .MaskRefModel
  | .PixelareaRef => some .PixelareaRefModel
  | .ReadnoiseRef => some .ReadnoiseRefModel
  | .SaturationRef => some .SaturationRefModel
  | .SuperbiasRef => some .SuperbiasRefModel
  | .WfiImgPhotomRef => some .WfiImgPhotomRefModel
  | .Unregistered _ => none

/-- Every model class is a direct subclass of `DataModel` and of itself
(Python `issubclass` / `isinstance` on the classes of datamodels.py). -/
def isSubclassOf (c t : ModelClass) : Bool :=
  c = t || t = .DataModelBase

/-! ## ASDF files, data models, the filesystem and Python exceptions -/

/-- An ASDF tree: keys mapped to a tagged node or to Python `None`. -/
abbrev Tree := List (String × Option TaggedObjectNode)

/-- The part of an `asdf.AsdfFile` object that datamodels.py uses: its tree
and whether `close()` has been called on it. -/
structure AsdfFile : Type where
  tree : Tree
  closed : Bool
  deriving DecidableEq, Repr

/-- The filesystem: paths mapped to the ASDF tree written there. -/
abbrev FS := List (String × Tree)

def fsLookup (fs : FS) (path : String) : Option Tree := alistLookup path fs

def treeLookup (t : Tree) (k : String) : Option (Option TaggedObjectNode) :=
  alistLookup k t

/-- Python exceptions raised by the code under src/ (or surfaced by the
libraries it calls).  `validationError` stands for the errors the external
schema-validation library raises; every other constructor is an error
condition the repository's own code (or Python itself) produces. -/
inductive Err : Type
  | valueError (msg : String)
  | ioError (msg : String)
  | typeError (msg : String)
  | keyError (key : String)
  | attributeError (name : String)
  | indexError (msg : String)
  | notImplementedError (msg : String)
  | fileNotFoundError (path : String)
  | validationError (msg : String)
  deriving DecidableEq, Repr

/-- Does the error come from the external validation library? -/
def errFromValidationLib : Err → Bool
  | .validationError _ => true
  | _ => false

def isOkE {α : Type} : Except Err α → Bool
  | .ok _ => true
  | .error _ => false

/-- The state of a `DataModel` wrapper object.  The slots `_iscopy`,
`_instance` and `_asdf` of the Python object's `__dict__` are modelled as
typed fields; `wrapperDict` holds the remaining underscore-named entries of
the wrapper's `__dict__` (those set through `__setattr__`); `oid` is the
object identity used where a claim distinguishes "the same object" from a
copy. -/
structure DataModel : Type where
  cls : ModelClass
  oid : Nat
  iscopy : Bool
  instanceNode : Option TaggedObjectNode
  asdfFile : Option AsdfFile
  wrapperDict : List (String × Nat)
  deriving DecidableEq, Repr

/-- The kinds of value accepted (or rejected) by `DataModel.__init__` and
`ModelContainer.__init__` as their `init` argument. -/
inductive InitArg : Type
  | noneArg
  | path (p : String)
  | file (f : AsdfFile)
  | node (n : TaggedObjectNode)
  | modelList (ms : List DataModel)
  | other
  deriving Repr

/-! ## datamodels.py: `DataModel.__init__`, `check_type` and friends -/

/-- Embedding of `model_registry[topnode.__class__]` where `topnode` may be `None`
(`NoneType` and unregistered node classes are not registry keys). -/
def registryLookup : Option TaggedObjectNode → Option ModelClass
  | none => none
  | some n => model_registry n.ntype

/-- Embedding of `DataModel.check_type` (datamodels.py lines 85-95): `ValueError` when
the tree has no `roman` key, `KeyError` when the top node's class is not a
registry key, otherwise whether the registered class is this class. -/
def check_type (cls : ModelClass) (f : AsdfFile) : Except Err Bool :=
  match treeLookup f.tree "roman" with
  | none => .error (.valueError "ASDF file does not have expected \"roman\" attribute")
  | some inst =>
    match registryLookup inst with
    | none => .error (.keyError "model_registry")
    | some mc => .ok (mc = cls)

/-- Embedding of `DataModel.__init__` with `init=None`: a fresh empty `asdf.AsdfFile` is
attached and `_instance` stays `None`. -/
def initNone (cls : ModelClass) (oid : Nat) : DataModel :=
  { cls := cls, oid := oid, iscopy := false, instanceNode := none
    asdfFile := some { tree := [], closed := false }, wrapperDict := [] }

/-- Embedding of `DataModel.__init__` with a `TaggedObjectNode` (lines 76-79): the node
itself becomes `_instance` and a fresh `AsdfFile` whose tree maps `roman`
to that node is attached. -/
def initFromNode (cls : ModelClass) (n : TaggedObjectNode) (oid : Nat) : DataModel :=
  { cls := cls, oid := oid, iscopy := false, instanceNode := some n
    asdfFile := some { tree := [("roman", some n)], closed := false }, wrapperDict := [] }

/-- Embedding of `DataModel.__init__` with an `asdf.AsdfFile` (lines 72-75): `_instance`
becomes `tree['roman']` (a `KeyError` when that key is absent). -/
def initFromAsdfFile (cls : ModelClass) (f : AsdfFile) (oid : Nat) : Except Err DataModel :=
  match treeLookup f.tree "roman" with
  | none => .error (.keyError "roman")
  | some inst =>
    .ok { cls := cls, oid := oid, iscopy := false, instanceNode := inst
          asdfFile := some f, wrapperDict := [] }

/-- Embedding of `DataModel.__init__` with a path (lines 62-71): open the file, run
`check_type` (whose own errors propagate), raise `ValueError` when the
registered class differs, otherwise take `tree['roman']` as `_instance`. -/
def initFromPath (cls : ModelClass) (p : String) (fs : FS) (oid : Nat) :
    Except Err DataModel :=
  match fsLookup fs p with
  | none => .error (.fileNotFoundError p)
  | some t =>
    let f : AsdfFile := { tree := t, closed := false }
    match check_type cls f with
    | .error e => .error e
    | .ok false =>
      .error (.valueError ("ASDF file is not of the type expected. Expected " ++ clsName cls))
    | .ok true =>
      match treeLookup t "roman" with
      | none => .error (.keyError "roman")
      | some inst =>
        .ok { cls := cls, oid := oid, iscopy := false, instanceNode := inst
              asdfFile := some f, wrapperDict := [] }

/-- Embedding of `ModelContainer.__init__` (datamodels.py lines 336-385) with no
`asn_file_path`: only a list input is accepted (all strings or all data
models; the `_models` contents play no role in any claim and are not
stored); every other `init` raises `TypeError`.  The `_memmap`,
`_return_open` and `_save_open` defaults land in the wrapper `__dict__`. -/
def containerInit (arg : InitArg) (oid : Nat) : Except Err DataModel :=
  match arg with
  | .modelList _ =>
    .ok { cls := .ModelContainer, oid := oid, iscopy := false, instanceNode := none
          asdfFile := some { tree := [], closed := false }
          wrapperDict := [("_memmap", 0), ("_return_open", 1), ("_save_open", 1)] }
  | _ =>
    .error (.typeError
      "Input must be an ASN filepath or list of either strings (full path to ASDF files) or Roman datamodels.")

/-- Embedding of `cls(init)` for any wrapper class: `ModelContainer` overrides
`__init__` wholesale; every other class uses `DataModel.__init__`, whose
final branch raises `IOError` for an unrecognized argument. -/
def dataModelInit (cls : ModelClass) (arg : InitArg) (fs : FS) (oid : Nat) :
    Except Err DataModel :=
  if cls = .ModelContainer then containerInit arg oid
  else
    match arg with
    | .noneArg => .ok (initNone cls oid)
    | .path p => initFromPath cls p fs oid
    | .file f => initFromAsdfFile cls f oid
    | .node n => .ok (initFromNode cls n oid)
    | .modelList _ =>
      .error (.ioError "Argument does not appear to be an ASDF file or TaggedObjectNode.")
    | .other =>
      .error (.ioError "Argument does not appear to be an ASDF file or TaggedObjectNode.")

/-! ## datamodels.py: clone / copy / close / save / to_asdf -/

/-- Embedding of `DataModel.clone(target, source, deepcopy)` (lines 126-140): the target
takes the source's instance (a structurally equal deep copy when
`deepcopy`, the shared value otherwise — in this pure model both are the
same value) and `source._asdf` (via `.copy()` when `deepcopy`), and its
`_iscopy` flag is set. -/
def cloneModel (target source : DataModel) (_deepcopy : Bool) : DataModel :=
  { target with
      asdfFile := source.asdfFile
      instanceNode := source.instanceNode
      iscopy := true }

/-- Node-level attribute access: `getattr(self._instance, a)`; when
`_instance` is `None` this is an `AttributeError` (`none`). -/
def nodeAttrLookup (inst : Option TaggedObjectNode) (a : String) : Option Nat :=
  match inst with
  | none => none
  | some n => alistLookup a n.attrs

/-- Embedding of `DataModel.copy()` (lines 119-124): build `self.__class__(init=None)`
and clone into it with `deepcopy=True`; the fresh wrapper gets a new object
id from the allocator `σ`.  `ModelContainer.copy()` (lines 420-438)
overrides this and first evaluates `self._pass_invalid_values`, an
attribute no `ModelContainer` ever sets: with `_instance` equal to `None`
the lookup is an `AttributeError`, and even were it set, the subsequent
`self.__class__(init=None, ...)` call raises `TypeError` inside
`ModelContainer.__init__`. -/
def copyModel (m : DataModel) (σ : Nat) : Except Err (DataModel × Nat) :=
  if m.cls = .ModelContainer then
    match alistLookup "_pass_invalid_values" m.wrapperDict with
    | none =>
      match nodeAttrLookup m.instanceNode "_pass_invalid_values" with
      | none => .error (.attributeError "_pass_invalid_values")
      | some _ => .error (.typeError
          "Input must be an ASN filepath or list of either strings (full path to ASDF files) or Roman datamodels.")
    | some _ => .error (.typeError
        "Input must be an ASN filepath or list of either strings (full path to ASDF files) or Roman datamodels.")
  else
    .ok (cloneModel (initNone m.cls σ) m true, σ + 1)

/-- Embedding of `DataModel.close` (lines 104-107): unless the model is a copy, close
the attached ASDF file (when there is one). -/
def closeModel (m : DataModel) : DataModel :=
  if m.iscopy then m
  else
    match m.asdfFile with
    | none => m
    | some f => { m with asdfFile := some { f with closed := true } }

/-- Embedding of `DataModel.__exit__`, which calls `close()`. -/
def exitModel (m : DataModel) : DataModel := closeModel m

/-- Embedding of `DataModel.__del__`, which calls `close()`. -/
def delModel (m : DataModel) : DataModel := closeModel m

/-- Embedding of `DataModel.to_asdf(init)` (lines 170-175): a fresh `AsdfFile` whose
tree maps `roman` to `self._instance` is written to the path. -/
def to_asdf (m : DataModel) (outputPath : String) (fs : FS) : FS :=
  alistInsert outputPath [("roman", m.instanceNode)] fs

/-- The path arithmetic of `DataModel.save` (lines 142-159): split the
path, take the extension of the tail, substitute `dir_path` for the head
when given, and reject any extension other than `.asdf`. -/
def savePath (path : String) (dirPath : Option String) : Except Err String :=
  let head := (posixSplit path).1
  let tail := (posixSplit path).2
  let ext := (splitext tail).2
  let head' := match dirPath with
    | some d => d
    | none => head
  if ext = ".asdf" then .ok (posixJoin head' tail)
  else .error (.valueError ("unknown filetype " ++ ext))

/-- Embedding of `DataModel.save(path, dir_path)` (lines 142-161): on success returns
the output path and the filesystem holding the written tree. -/
def saveModel (m : DataModel) (path : String) (dirPath : Option String) (fs : FS) :
    Except Err (String × FS) :=
  match savePath path dirPath with
  | .error e => .error e
  | .ok out => .ok (out, to_asdf m out fs)

/-! ## datamodels.py: the `open` factory function (lines 557-618) -/

/-- Build `model_registry[modeltype](asdffile)`: `ModelContainer.__init__`
rejects an `AsdfFile` argument with `TypeError`; every other class uses
`DataModel.__init__`'s `AsdfFile` branch. -/
def constructModel (cls : ModelClass) (f : AsdfFile) (oid : Nat) : Except Err DataModel :=
  if cls = .ModelContainer then containerInit (.file f) oid
  else initFromAsdfFile cls f oid

/-- The tail of `open` once an `AsdfFile` is in hand (lines 608-618).
`tree['roman']` is looked up (a `KeyError` when absent); a registered node
class is wrapped in its registered model class and, when `target` is
given, checked against it — note that in the source the successful
target-check branch falls off the end of the function and returns Python
`None`, modelled as `.ok (none, _)`. -/
def openDispatch (f : AsdfFile) (target : Option ModelClass) (σ : Nat) :
    Except Err (Option DataModel × Nat) :=
  match treeLookup f.tree "roman" with
  | none => .error (.keyError "roman")
  | some inst =>
    match registryLookup inst with
    | some mc =>
      match constructModel mc f σ with
      | .error e => .error e
      | .ok rmodel =>
        match target with
        | some t =>
          if isSubclassOf rmodel.cls t then .ok (none, σ + 1)
          else .error (.valueError "Referenced ASDF file model type is not subclass of target")
        | none => .ok (some rmodel, σ + 1)
    | none =>
      match initFromAsdfFile .DataModelBase f σ with
      | .error e => .error e
      | .ok dm => .ok (some dm, σ + 1)

/-- Embedding of `open(init)` when `init` is a path (lines 598-607 then 608-618): read
the file and dispatch on the top node's class. -/
def openFromPath (fs : FS) (p : String) (target : Option ModelClass) (σ : Nat) :
    Except Err (Option DataModel × Nat) :=
  match fsLookup fs p with
  | none => .error (.fileNotFoundError p)
  | some t => openDispatch { tree := t, closed := false } target σ

/-- Embedding of `open(init)` when `init` is already a `DataModel` (lines 590-597): with
a matching `target` the very same object is returned; with no `target` a
copy is returned. -/
def openFromModel (m : DataModel) (target : Option ModelClass) (σ : Nat) :
    Except Err (DataModel × Nat) :=
  match target with
  | some t =>
    if isSubclassOf m.cls t then .ok (m, σ)
    else .error (.valueError "First argument is not an instance of target")
  | none => copyModel m σ

/-! ## datamodels.py: attribute access (`__getattr__` / `__setattr__`,
lines 207-214), together with the part of Python's attribute machinery
that decides whether `__getattr__` is reached at all: attributes found on
the wrapper class itself (methods, properties, class variables) win over
the `__getattr__` fallback to `_instance`. -/

/-- The result of `getattr` on a wrapper: either a data value or an
attribute found on the wrapper class (a bound method, property or class
variable). -/
inductive PyVal : Type
  | nat (n : Nat)
  | classAttr (name : String)
  deriving DecidableEq, Repr

/-- The non-underscore attributes defined on the `DataModel` class body
(methods, properties and the `crds_observatory` class variable), plus the
extra methods `ModelContainer` defines and the non-underscore mixin
methods `index` and `count` it inherits from `collections.abc.Sequence`
(datamodels.py line 334). -/
def classAttrs (cls : ModelClass) : List String :=
  ["crds_observatory", "check_type", "schema_uri", "close", "copy", "clone",
   "save", "open_asdf", "to_asdf", "get_primary_array_name", "override_handle",
   "shape", "items", "to_flat_dict", "get_crds_parameters", "validate",
   "info", "search", "schema_info"] ++
  (if cls = .ModelContainer then
    ["insert", "append", "extend", "pop", "models_grouped", "index", "count"]
   else [])

/-- Embedding of `getattr(model, a)`: for an underscore name, the instance `__dict__` is
consulted first and `__getattr__` (forwarding to `_instance`) is the
fallback; for any other name, the wrapper's `__dict__` never holds it (the
`__setattr__` below routes such writes to `_instance`), so a class
attribute wins and otherwise `__getattr__` forwards to `_instance`.
`none` is an `AttributeError`. -/
def getattrModel (m : DataModel) (a : String) : Option PyVal :=
  if startsUnderscore a then
    match alistLookup a m.wrapperDict with
    | some v => some (.nat v)
    | none => (nodeAttrLookup m.instanceNode a).map .nat
  else
    if a ∈ classAttrs m.cls then some (.classAttr a)
    else (nodeAttrLookup m.instanceNode a).map .nat

/-- Embedding of `DataModel.__setattr__` (lines 207-211): underscore names go into the
wrapper's own `__dict__`; every other name is forwarded to
`setattr(self._instance, a, v)`, which is an `AttributeError` when
`_instance` is `None`. -/
def setattrModel (m : DataModel) (a : String) (v : Nat) : Except Err DataModel :=
  if startsUnderscore a then
    .ok { m with wrapperDict := alistInsert a v m.wrapperDict }
  else
    match m.instanceNode with
    | none => .error (.attributeError a)
    | some n =>
      .ok { m with instanceNode := some { n with attrs := alistInsert a v n.attrs } }

/-! ## units.py: `UnitMixin.__mul__` / `__truediv__` / `__pow__`

An astropy unit is modelled by its decomposition: either a named base unit
or a composite with a rational scale and a list of (base symbol, power)
factors.  `is_unity` asks whether the unit decomposes to the dimensionless
unit with scale 1 (every net power zero). -/

inductive AUnit : Type
  | base (symbol : String)
  | composite (scale : ℚ) (parts : List (String × Int))
  deriving DecidableEq, Repr

/-- Net power of a base symbol in a composite's factor list. -/
def netPower (parts : List (String × Int)) (s : String) : Int :=
  (parts.filter (fun q => q.1 = s)).foldl (fun acc q => acc + q.2) 0

/-- Embedding of `UnitBase.is_unity()`: a named unit is never unity; a composite is
unity when its scale is 1 and every symbol's net power is zero. -/
def is_unity : AUnit → Bool
  | .base _ => false
  | .composite c parts =>
    c = 1 && (parts.map (fun q => q.1)).all (fun s => netPower parts s = 0)

/-- The decomposition of `u ** p`. -/
def flattenPow (u : AUnit) (p : Int) : ℚ × List (String × Int) :=
  match u with
  | .base s => (1, [(s, p)])
  | .composite c parts => (c ^ p, parts.map (fun q => (q.1, q.2 * p)))

/-- Embedding of `CompositeUnit(scale, bases, powers)` in decomposed form. -/
def compositeOf (scale : ℚ) (factors : List (AUnit × Int)) : AUnit :=
  .composite
    (factors.foldl (fun acc f => acc * (flattenPow f.1 f.2).1) scale)
    (factors.foldl (fun acc f => acc ++ (flattenPow f.1 f.2).2) [])

/-- Embedding of `UnitMixin.__mul__` (units.py lines 30-39) for a unit argument: a unity
argument returns `self` unchanged, a unity `self` returns the argument,
and otherwise `CompositeUnit(1, [self, m], [1, 1])` is built. -/
def umul (self m : AUnit) : AUnit :=
  if is_unity m then self
  else if is_unity self then m
  else compositeOf 1 [(self, 1), (m, 1)]

/-- Embedding of `UnitMixin.__truediv__` (units.py lines 14-21) for a unit argument: a
unity argument returns `self` unchanged, otherwise
`CompositeUnit(1, [self, m], [1, -1])` is built. -/
def udiv (self m : AUnit) : AUnit :=
  if is_unity m then self
  else compositeOf 1 [(self, 1), (m, -1)]

/-- Embedding of `UnitMixin.__pow__` (units.py lines 8-12). -/
def upow (self : AUnit) (p : Int) : AUnit := compositeOf 1 [(self, p)]

/-! ## generator/_adaptor.py: `has_adaptor` and `adaptor_factory`

The modules `roman_datamodels.core.adaptors` (the `asdf_tags` enum and the
`ADAPTORS` name table) and `generator/_utils.py` (`remove_uri_version`)
are not under src/ and are modelled from the spec below. -/

/-- Modelled from the spec: the adaptor tag vocabulary ("unit/array/time
adaptors", plus the astropy quantity family named in _adaptor.py); the
concrete `asdf_tags` enum lives in `roman_datamodels.core.adaptors`, which
is not under src/. -/
inductive AsdfTagName : Type
  | ASTROPY_TIME | ND_ARRAY | ASTROPY_UNIT | ASDF_UNIT | ASTROPY_QUANTITY
  deriving DecidableEq, Repr

/-- Modelled from the spec: the versioned tag URI of each adaptor tag. -/
def tagValue : AsdfTagName → String
  | .ASTROPY_TIME => "tag:stsci.edu:asdf/time/time-1.1.0"
  | .ND_ARRAY => "tag:stsci.edu:asdf/core/ndarray-1.0.0"
  | .ASTROPY_UNIT => "tag:astropy.org:astropy/units/unit-1.0.0"
  | .ASDF_UNIT => "tag:stsci.edu:asdf/unit/unit-1.0.0"
  | .ASTROPY_QUANTITY => "tag:stsci.edu:asdf/unit/quantity-1.1.0"

/-- Modelled from the spec: `ADAPTORS[name]`, the adaptor class name used
for each supported tag family (`AstropyTime` is the one visible under src/
in pydantic/adaptors/_astropy_time.py). -/
def adaptorName : AsdfTagName → String
  | .ASTROPY_TIME => "AstropyTime"
  | .ND_ARRAY => "NdArray"
  | .ASTROPY_UNIT => "AstropyUnit"
  | .ASDF_UNIT => "AstropyUnit"
  | .ASTROPY_QUANTITY => "AstropyQuantity"

/-- Modelled from the spec: `remove_uri_version` strips the trailing
version suffix of a tag URI ("the version-stripped tag"), i.e. everything
from the final dash on. -/
def removeUriVersion (uri : String) : String :=
  match lastIdxOf '-' uri.data with
  | none => uri
  | some i => String.mk (uri.data.take i)

/-- Embedding of `ASDF_TAGS` (_adaptor.py line 26): the version-stripped supported
tags. -/
def ASDF_TAGS : List String :=
  [removeUriVersion (tagValue .ASTROPY_TIME),
   removeUriVersion (tagValue .ND_ARRAY),
   removeUriVersion (tagValue .ASTROPY_UNIT),
   removeUriVersion (tagValue .ASDF_UNIT),
   removeUriVersion (tagValue .ASTROPY_QUANTITY)]

/-- Embedding of `adaptors.__name__`, the module the generated imports come from. -/
def FROM_MODULE : String := "roman_datamodels.core.adaptors"

/-- The `extras` dict of a tagged ndarray schema object. -/
structure NdExtras : Type where
  datatype : Option String
  ndim : Option Nat
  default_shape : Option (List Nat)
  deriving DecidableEq, Repr

/-- The `value` entry of a quantity schema's properties: the key may be
absent (then `properties.get("value", "None, None")` yields the default
string, which `_ndarray_factory` cannot handle), may map to Python `None`,
or may map to an ndarray schema object. -/
inductive ValueSlot : Type
  | absent
  | pyNone
  | ndarray (extras : NdExtras)
  deriving DecidableEq, Repr

/-- The `properties` dict of a quantity schema object.  `datatypeEnum`
is `some es` when a `datatype` key is present whose sub-object carries the
enum `es`; `unitEnum` is the enum of the `unit` sub-object when one is
present with a usable enum (an absent key, a `None` value and an enum-less
sub-object all behave identically in `_unit_factory` and are collapsed to
`none`). -/
structure QuantityProps : Type where
  datatypeEnum : Option (List String)
  value : ValueSlot
  unitEnum : Option (List String)
  deriving DecidableEq, Repr

/-- A parsed schema object (`RadSchemaObject`), as far as _adaptor.py
reads it.  The parser itself (`generator/_schema.py`) is not under src/;
modelled from the spec ("the dynamic code-generation component that turns
schema definitions into typed accessor classes"). -/
structure RadSchemaObject : Type where
  tag : Option String
  extras : NdExtras
  enum : Option (List String)
  properties : Option QuantityProps
  deriving DecidableEq, Repr

/-- The `DataType` template handed to `adaptor_factory` and its
`model_copy` result with `type` and `import_` set. -/
structure DataTypeM : Type where
  typeStr : String
  importFromMod : Option String
  importItems : Option String
  deriving DecidableEq, Repr

/-- Embedding of `has_adaptor` (_adaptor.py lines 29-45). -/
def has_adaptor (obj : RadSchemaObject) : Bool :=
  match obj.tag with
  | none => false
  | some t => removeUriVersion t ∈ ASDF_TAGS

def optNatRepr : Option Nat → String
  | none => "None"
  | some n => toString n

/-- Python `tuple(l)` repr for a list of ints (single-element tuples keep
the trailing comma). -/
def pyTupleRepr : List Nat → String
  | [] => "()"
  | [a] => "(" ++ toString a ++ ",)"
  | l => "(" ++ String.intercalate ", " (l.map toString) ++ ")"

/-- Embedding of `_ndarray_factory` (_adaptor.py lines 114-147): returns the dtype/ndim
snippet, the default shape, and the augmented import string. -/
def ndarrayFactory (e : NdExtras) (imp : String) : String × Option (List Nat) × String :=
  match e.datatype with
  | some d => ("np." ++ d ++ ", " ++ optNatRepr e.ndim, e.default_shape, imp ++ ", np")
  | none => ("None, " ++ optNatRepr e.ndim, e.default_shape, imp)

/-- Embedding of `_unit_factory` (_adaptor.py lines 150-189): `none` when there is no
usable enum; otherwise the `Unit("...")` snippet (a tuple of them when the
enum has more than one entry) and `Unit` added to the imports. -/
def unitFactory (enum? : Option (List String)) (imp : String) : Option String × String :=
  match enum? with
  | none => (none, imp)
  | some us =>
    let units := us.map (fun u => "Unit(\"" ++ u ++ "\")")
    match units with
    | [u] => (some u, imp ++ ", Unit")
    | _ => (some ("(" ++ String.intercalate ", " units ++ ")"), imp ++ ", Unit")

def optStrRepr : Option String → String
  | none => "None"
  | some s => s

/-- Embedding of `_quantity_factory` (_adaptor.py lines 192-238).  A present `datatype`
key means a scalar quantity (`np.<enum[0]>, 0`; an empty enum is an
`IndexError`); otherwise the `value` entry is treated as an ndarray — when
the key is absent the `"None, None"` default string reaches
`_ndarray_factory`, whose `.extras` access on a string is an
`AttributeError`. -/
def quantityFactory (props : QuantityProps) (imp : String) : Except Err (String × String) :=
  match props.datatypeEnum with
  | some [] => .error (.indexError "list index out of range")
  | some (e :: _) =>
    let imp1 := imp ++ ", np"
    let value := "np." ++ e ++ ", 0"
    let u := unitFactory props.unitEnum imp1
    .ok (value ++ ", " ++ optStrRepr u.1, u.2)
  | none =>
    match props.value with
    | .absent => .error (.attributeError "extras")
    | .pyNone =>
      let u := unitFactory props.unitEnum imp
      .ok ("None, " ++ optStrRepr u.1, u.2)
    | .ndarray e =>
      let nf := ndarrayFactory e imp
      let u := unitFactory props.unitEnum nf.2.2
      let v := nf.1 ++ ", " ++ optStrRepr u.1
      match nf.2.1 with
      | some ds => .ok (v ++ ", " ++ pyTupleRepr ds, u.2)
      | none => .ok (v, u.2)

/-- Embedding of `adaptor_factory` (_adaptor.py lines 48-111): dispatch on the
version-stripped tag; outside the four handled families a
`NotImplementedError` carrying the original tag is raised.  An ndarray
object without a `default_shape` hits `tuple(None)` (a `TypeError`), and a
quantity object without `properties` hits `"datatype" in None` (a
`TypeError`). -/
def adaptor_factory (obj : RadSchemaObject) (dt : DataTypeM) : Except Err DataTypeM :=
  match obj.tag with
  | none => .error (.typeError "expected string or bytes-like object")
  | some t =>
    let tag := removeUriVersion t
    if tag = removeUriVersion (tagValue .ASTROPY_TIME) then
      let name := adaptorName .ASTROPY_TIME
      .ok { dt with typeStr := name, importFromMod := some FROM_MODULE, importItems := some name }
    else if tag = removeUriVersion (tagValue .ND_ARRAY) then
      let name := adaptorName .ND_ARRAY
      match obj.extras.default_shape with
      | none => .error (.typeError "argument of type NoneType is not iterable")
      | some ds =>
        let nf := ndarrayFactory obj.extras name
        let typ := name ++ "[" ++ nf.1 ++ ", " ++ pyTupleRepr ds ++ "]"
        .ok { dt with typeStr := typ, importFromMod := some FROM_MODULE, importItems := some nf.2.2 }
    else if tag = removeUriVersion (tagValue .ASTROPY_UNIT) ∨
            tag = removeUriVersion (tagValue .ASDF_UNIT) then
      let name := adaptorName .ASTROPY_UNIT
      let u := unitFactory obj.enum name
      let typ := name ++ "[" ++ optStrRepr u.1 ++ "]"
      .ok { dt with typeStr := typ, importFromMod := some FROM_MODULE, importItems := some u.2 }
    else if tag = removeUriVersion (tagValue .ASTROPY_QUANTITY) then
      let name := adaptorName .ASTROPY_QUANTITY
      match obj.properties with
      | none => .error (.typeError "argument of type NoneType is not iterable")
      | some props =>
        match quantityFactory props name with
        | .error e => .error e
        | .ok qf =>
          let typ := name ++ "[" ++ qf.1 ++ "]"
          .ok { dt with typeStr := typ, importFromMod := some FROM_MODULE, importItems := some qf.2 }
    else
      .error (.notImplementedError ("Unsupported tag: " ++ t))

/-- Well-formedness of a parsed schema object, as the schema parser (not
under src/) guarantees it for the claims below: a tagged ndarray schema
carries a `default_shape`, and a tagged quantity schema carries properties
with either a scalar `datatype` (non-empty enum) or a `value` entry. -/
def wellFormedObj (obj : RadSchemaObject) : Bool :=
  (match obj.tag with
   | none => true
   | some t =>
     let tag := removeUriVersion t
     (if tag = removeUriVersion (tagValue .ND_ARRAY) then
        obj.extras.default_shape.isSome
      else true) &&
     (if tag = removeUriVersion (tagValue .ASTROPY_QUANTITY) then
        match obj.properties with
        | none => false
        | some props =>
          match props.datatypeEnum with
          | some es => !es.isEmpty
          | none => props.value ≠ .absent
      else true))

/-! ## Helper lemmas -/

theorem model_registry_container_iff (nt : NodeType) :
    model_registry nt = some ModelClass.ModelContainer ↔ nt = .ModelContainerNode := by
  cases nt <;> simp [model_registry]

/-! ## Claims -/

/-- C7: constructing `DataModel(n)` from a tagged object node stores the
node itself as the model's underlying instance and attaches an ASDF file
whose tree is exactly a map sending `roman` to that node. -/
theorem C7_init_from_node (cls : ModelClass) (n : TaggedObjectNode) (fs : FS) (σ : Nat)
    (hmc : cls ≠ .ModelContainer) :
    dataModelInit cls (.node n) fs σ = .ok (initFromNode cls n σ) ∧
    (initFromNode cls n σ).instanceNode = some n ∧
    (initFromNode cls n σ).asdfFile = some { tree := [("roman", some n)], closed := false } := by
  refine ⟨?_, rfl, rfl⟩
  simp [dataModelInit, hmc]

/-- Witness for C7 at `DataModel(WfiImage node)`. -/
theorem C7_init_from_node_witness :
    ModelClass.DataModelBase ≠ ModelClass.ModelContainer ∧
    dataModelInit .DataModelBase (.node ⟨.WfiImage, []⟩) [] 0 =
      .ok (initFromNode .DataModelBase ⟨.WfiImage, []⟩ 0) ∧
    (initFromNode .DataModelBase ⟨.WfiImage, []⟩ 0).instanceNode = some ⟨.WfiImage, []⟩ := by
  refine ⟨by decide, ?_, ?_⟩
  · exact (C7_init_from_node .DataModelBase ⟨.WfiImage, []⟩ [] 0 (by decide)).1
  · exact (C7_init_from_node .DataModelBase ⟨.WfiImage, []⟩ [] 0 (by decide)).2.1

/-- C10 counterexample: two structurally distinct unity units; the Roman
`CompositeUnit(1, [m], [0])` is unity, the dimensionless unit is unity,
yet their product is the left operand, not the right one — so a unity
`r` times a unity `m` does not return `m`. -/
theorem C10_counterexample :
    is_unity (.composite 1 [("m", 0)]) = true ∧
    is_unity (.composite (1 : ℚ) []) = true ∧
    umul (.composite 1 [("m", 0)]) (.composite 1 []) = .composite 1 [("m", 0)] ∧
    AUnit.composite (1 : ℚ) [("m", 0)] ≠ .composite 1 [] := by decide

/-- C10 (amended): a unity right operand leaves `r` unchanged under both
`*` and `/`; a unity `r` times a non-unity unit `m` returns `m`. -/
theorem C10_unity_identity (r m : AUnit) :
    (is_unity m = true → umul r m = r ∧ udiv r m = r) ∧
    (is_unity r = true → is_unity m = false → umul r m = m) := by
  constructor
  · intro hm
    constructor <;> simp [umul, udiv, hm]
  · intro hr hm
    simp [umul, hm, hr]

/-- Witness for C10 at `DN * dimensionless` and `dimensionless * DN`. -/
theorem C10_unity_identity_witness :
    is_unity (AUnit.composite 1 []) = true ∧
    is_unity (AUnit.base "DN") = false ∧
    umul (.base "DN") (.composite 1 []) = .base "DN" ∧
    umul (.composite 1 []) (.base "DN") = .base "DN" := by
  refine ⟨by decide, by decide, ?_, ?_⟩
  · exact ((C10_unity_identity (.base "DN") (.composite 1 [])).1 (by decide)).1
  · exact (C10_unity_identity (.composite 1 []) (.base "DN")).2 (by decide) (by decide)

/-- C9: `clone` always sets the copy flag, every model `copy()` produces
carries the flag, `close()` (hence `__exit__` and `__del__`) leaves the
attached ASDF file untouched on a copy, and on a non-copy it closes the
attached file. -/
theorem C9_copy_flag_close (target source m : DataModel) (σ : Nat) (deep : Bool) :
    (cloneModel target source deep).iscopy = true ∧
    (∀ c σ', copyModel m σ = .ok (c, σ') → c.iscopy = true) ∧
    (m.iscopy = true → closeModel m = m ∧ exitModel m = m ∧ delModel m = m) ∧
    (m.iscopy = false → ∀ f, m.asdfFile = some f →
      (closeModel m).asdfFile = some { f with closed := true }) := by
  refine ⟨rfl, ?_, ?_, ?_⟩
  · intro c σ' hc
    by_cases hmc : m.cls = .ModelContainer
    · simp only [copyModel, hmc, if_pos rfl] at hc
      rcases h1 : alistLookup "_pass_invalid_values" m.wrapperDict with _ | v
      · rcases h2 : nodeAttrLookup m.instanceNode "_pass_invalid_values" with _ | w
        · simp [h1, h2] at hc
        · simp [h1, h2] at hc
      · simp [h1] at hc
    · simp only [copyModel, hmc, if_neg hmc] at hc
      obtain ⟨h, -⟩ := Prod.mk.injEq .. ▸ (Except.ok.injEq .. ▸ hc)
      rw [← h]
      rfl
  · intro hcopy
    refine ⟨?_, ?_, ?_⟩ <;> simp [closeModel, exitModel, delModel, hcopy]
  · intro hnot f hf
    simp [closeModel, hnot, hf]

/-- Witness for C9 at a concrete image model: its `copy()` result carries
the flag, and `close()` on the original closes the attached file. -/
theorem C9_copy_flag_close_witness :
    (cloneModel (initNone .ImageModel 1) (initFromNode .ImageModel ⟨.WfiImage, []⟩ 0) true).iscopy
      = true ∧
    (closeModel (initFromNode .ImageModel ⟨.WfiImage, []⟩ 0)).asdfFile =
      some { tree := [("roman", some ⟨.WfiImage, []⟩)], closed := true } := by
  refine ⟨?_, ?_⟩
  · exact (C9_copy_flag_close (initNone .ImageModel 1) (initFromNode .ImageModel ⟨.WfiImage, []⟩ 0)
      (initFromNode .ImageModel ⟨.WfiImage, []⟩ 0) 1 true).2.1
      (cloneModel (initNone .ImageModel 1) (initFromNode .ImageModel ⟨.WfiImage, []⟩ 0) true) 2 rfl
  · exact (C9_copy_flag_close (initNone .ImageModel 1) (initFromNode .ImageModel ⟨.WfiImage, []⟩ 0)
      (initFromNode .ImageModel ⟨.WfiImage, []⟩ 0) 1 true).2.2.2 rfl
      { tree := [("roman", some ⟨.WfiImage, []⟩)], closed := false } rfl

/-- C3 counterexample: `stnode.ModelContainer` is a key of
`model_registry`, yet `open()` on an ASDF file whose top node has that
type raises `TypeError` inside `ModelContainer.__init__` instead of
returning an instance of the registered class. -/
theorem C3_counterexample :
    model_registry NodeType.ModelContainerNode = some ModelClass.ModelContainer ∧
    openDispatch { tree := [("roman", some ⟨.ModelContainerNode, []⟩)], closed := false } none 0 =
      .error (.typeError
        "Input must be an ASN filepath or list of either strings (full path to ASDF files) or Roman datamodels.") := by
  exact ⟨rfl, rfl⟩

/-- C3 (amended): `open()` on an ASDF file whose tree maps `roman` to a
node returns an instance of exactly the registered wrapper class when the
node's type is a registry key other than `stnode.ModelContainer`, and a
plain `DataModel` when the node's type is not a registry key. -/
theorem C3_open_registry (f : AsdfFile) (n : TaggedObjectNode) (σ : Nat)
    (hroman : treeLookup f.tree "roman" = some (some n)) :
    (∀ mc, model_registry n.ntype = some mc → mc ≠ .ModelContainer →
      openDispatch f none σ =
        .ok (some { cls := mc, oid := σ, iscopy := false, instanceNode := some n,
                    asdfFile := some f, wrapperDict := [] }, σ + 1)) ∧
    (model_registry n.ntype = none →
      openDispatch f none σ =
        .ok (some { cls := .DataModelBase, oid := σ, iscopy := false, instanceNode := some n,
                    asdfFile := some f, wrapperDict := [] }, σ + 1)) := by
  constructor
  · intro mc hreg hmc
    simp [openDispatch, hroman, registryLookup, hreg, constructModel, hmc,
      initFromAsdfFile]
  · intro hreg
    simp [openDispatch, hroman, registryLookup, hreg, initFromAsdfFile]

/-- Witness for C3: a `WfiImage` file opens as an `ImageModel`; a file
with an unregistered top node opens as a plain `DataModel`. -/
theorem C3_open_registry_witness :
    openDispatch { tree := [("roman", some ⟨.WfiImage, []⟩)], closed := false } none 0 =
      .ok (some { cls := .ImageModel, oid := 0, iscopy := false,
                  instanceNode := some ⟨.WfiImage, []⟩,
                  asdfFile := some { tree := [("roman", some ⟨.WfiImage, []⟩)], closed := false },
                  wrapperDict := [] }, 1) ∧
    openDispatch { tree := [("roman", some ⟨.Unregistered 3, []⟩)], closed := false } none 0 =
      .ok (some { cls := .DataModelBase, oid := 0, iscopy := false,
                  instanceNode := some ⟨.Unregistered 3, []⟩,
                  asdfFile := some { tree := [("roman", some ⟨.Unregistered 3, []⟩)], closed := false },
                  wrapperDict := [] }, 1) := by
  constructor
  · exact (C3_open_registry { tree := [("roman", some ⟨.WfiImage, []⟩)], closed := false }
      ⟨.WfiImage, []⟩ 0 rfl).1 .ImageModel rfl (by decide)
  · exact (C3_open_registry { tree := [("roman", some ⟨.Unregistered 3, []⟩)], closed := false }
      ⟨.Unregistered 3, []⟩ 0 rfl).2 rfl

/-- C5 counterexample: `ModelContainer` is a `DataModel` subclass, and the
file at the path even satisfies the claim's success case (a `roman` key
whose node class is registered to `ModelContainer`), yet construction from
the path raises `TypeError` from `ModelContainer.__init__`, not the
behaviour the claim describes. -/
theorem C5_counterexample :
    registryLookup (some ⟨.ModelContainerNode, []⟩) = some ModelClass.ModelContainer ∧
    dataModelInit .ModelContainer (.path "f.asdf")
        [("f.asdf", [("roman", some ⟨.ModelContainerNode, []⟩)])] 0 =
      .error (.typeError
        "Input must be an ASN filepath or list of either strings (full path to ASDF files) or Roman datamodels.") := by
  exact ⟨rfl, rfl⟩

/-- C5 (amended): for every `DataModel` subclass other than
`ModelContainer`, constructing from a path raises `ValueError` when the
opened tree lacks the `roman` key, raises
`ValueError (ASDF file is not of the type expected)` when the registry
maps the top node's class to a different model class, and on a match
succeeds with the tree's `roman` node as the underlying instance. -/
theorem C5_init_from_path (cls : ModelClass) (p : String) (fs : FS) (t : Tree) (σ : Nat)
    (hmc : cls ≠ .ModelContainer) (hfs : fsLookup fs p = some t) :
    (treeLookup t "roman" = none →
      dataModelInit cls (.path p) fs σ =
        .error (.valueError "ASDF file does not have expected \"roman\" attribute")) ∧
    (∀ inst mc, treeLookup t "roman" = some inst → registryLookup inst = some mc →
      mc ≠ cls →
      dataModelInit cls (.path p) fs σ =
        .error (.valueError ("ASDF file is not of the type expected. Expected " ++ clsName cls))) ∧
    (∀ inst, treeLookup t "roman" = some inst → registryLookup inst = some cls →
      dataModelInit cls (.path p) fs σ =
        .ok { cls := cls, oid := σ, iscopy := false, instanceNode := inst,
              asdfFile := some { tree := t, closed := false }, wrapperDict := [] }) := by
  refine ⟨?_, ?_, ?_⟩
  · intro hro
    simp [dataModelInit, hmc, initFromPath, hfs, check_type, hro]
  · intro inst mc hro hreg hne
    simp [dataModelInit, hmc, initFromPath, hfs, check_type, hro, hreg, hne]
  · intro inst hro hreg
    simp [dataModelInit, hmc, initFromPath, hfs, check_type, hro, hreg]

/-- Witness for C5: an `ImageModel` opened from a matching `WfiImage`
file succeeds, from a `Ramp` file raises the type `ValueError`, and from a
roman-less file raises the attribute `ValueError`. -/
theorem C5_init_from_path_witness :
    dataModelInit .ImageModel (.path "a.asdf")
        [("a.asdf", [("roman", some ⟨.WfiImage, []⟩)])] 0 =
      .ok { cls := .ImageModel, oid := 0, iscopy := false,
            instanceNode := some ⟨.WfiImage, []⟩,
            asdfFile := some { tree := [("roman", some ⟨.WfiImage, []⟩)], closed := false },
            wrapperDict := [] } ∧
    dataModelInit .ImageModel (.path "b.asdf")
        [("b.asdf", [("roman", some ⟨.Ramp, []⟩)])] 0 =
      .error (.valueError "ASDF file is not of the type expected. Expected ImageModel") ∧
    dataModelInit .ImageModel (.path "c.asdf") [("c.asdf", [])] 0 =
      .error (.valueError "ASDF file does not have expected \"roman\" attribute") := by
  refine ⟨?_, ?_, ?_⟩
  · exact (C5_init_from_path .ImageModel "a.asdf"
      [("a.asdf", [("roman", some ⟨.WfiImage, []⟩)])] [("roman", some ⟨.WfiImage, []⟩)] 0
      (by decide) rfl).2.2 (some ⟨.WfiImage, []⟩) rfl rfl
  · exact (C5_init_from_path .ImageModel "b.asdf"
      [("b.asdf", [("roman", some ⟨.Ramp, []⟩)])] [("roman", some ⟨.Ramp, []⟩)] 0
      (by decide) rfl).2.1 (some ⟨.Ramp, []⟩) .RampModel rfl rfl (by decide)
  · exact (C5_init_from_path .ImageModel "c.asdf" [("c.asdf", [])] [] 0
      (by decide) rfl).1 rfl

/-- C8 counterexample: `ModelContainer(init=[])` is a legally constructed
`DataModel` instance, yet `open(m)` with `target=None` raises
`AttributeError` (its overriding `copy()` evaluates the never-assigned
`self._pass_invalid_values`) instead of returning a copy. -/
theorem C8_counterexample :
    containerInit (.modelList []) 5 =
      .ok { cls := .ModelContainer, oid := 5, iscopy := false, instanceNode := none,
            asdfFile := some { tree := [], closed := false },
            wrapperDict := [("_memmap", 0), ("_return_open", 1), ("_save_open", 1)] } ∧
    openFromModel
        { cls := .ModelContainer, oid := 5, iscopy := false, instanceNode := none,
          asdfFile := some { tree := [], closed := false },
          wrapperDict := [("_memmap", 0), ("_return_open", 1), ("_save_open", 1)] } none 6 =
      .error (.attributeError "_pass_invalid_values") := by
  exact ⟨rfl, rfl⟩

/-- C8 (amended): `open(m, target=T)` with `m` an instance of `T` returns
the very same object `m` without copying; `open(m)` with `target=None` on
any model that is not a `ModelContainer` returns a freshly allocated copy
distinct from `m` (same class, same instance and file content, copy flag
set), leaving `m` unchanged. -/
theorem C8_open_model (m : DataModel) (t : ModelClass) (σ : Nat)
    (hsub : isSubclassOf m.cls t = true) :
    openFromModel m (some t) σ = .ok (m, σ) ∧
    (m.cls ≠ .ModelContainer → m.oid < σ →
      ∃ c, openFromModel m none σ = .ok (c, σ + 1) ∧ c.oid ≠ m.oid ∧
        c.iscopy = true ∧ c.cls = m.cls ∧ c.instanceNode = m.instanceNode ∧
        c.asdfFile = m.asdfFile) := by
  constructor
  · simp [openFromModel, hsub]
  · intro hmc hoid
    refine ⟨cloneModel (initNone m.cls σ) m true, ?_, ?_, rfl, rfl, rfl, rfl⟩
    · simp [openFromModel, copyModel, hmc]
    · show σ ≠ m.oid
      exact (Nat.ne_of_lt hoid).symm

/-- Witness for C8 at a concrete image model, plus the target-match
identity case at a concrete `ModelContainer` instance. -/
theorem C8_open_model_witness :
    isSubclassOf ModelClass.ImageModel .DataModelBase = true ∧
    openFromModel (initFromNode .ImageModel ⟨.WfiImage, []⟩ 0) (some .DataModelBase) 1 =
      .ok (initFromNode .ImageModel ⟨.WfiImage, []⟩ 0, 1) ∧
    openFromModel
        { cls := .ModelContainer, oid := 3, iscopy := false, instanceNode := none,
          asdfFile := some { tree := [], closed := false },
          wrapperDict := [("_memmap", 0), ("_return_open", 1), ("_save_open", 1)] }
        (some .ModelContainer) 4 =
      .ok ({ cls := .ModelContainer, oid := 3, iscopy := false, instanceNode := none,
             asdfFile := some { tree := [], closed := false },
             wrapperDict := [("_memmap", 0), ("_return_open", 1), ("_save_open", 1)] }, 4) ∧
    ∃ c, openFromModel (initFromNode .ImageModel ⟨.WfiImage, []⟩ 0) none 1 = .ok (c, 2) ∧
      c.oid ≠ (initFromNode .ImageModel ⟨.WfiImage, []⟩ 0).oid ∧ c.iscopy = true := by
  refine ⟨by decide, ?_, ?_, ?_⟩
  · exact (C8_open_model (initFromNode .ImageModel ⟨.WfiImage, []⟩ 0) .DataModelBase 1
      (by decide)).1
  · exact (C8_open_model
      { cls := .ModelContainer, oid := 3, iscopy := false, instanceNode := none,
        asdfFile := some { tree := [], closed := false },
        wrapperDict := [("_memmap", 0), ("_return_open", 1), ("_save_open", 1)] }
      .ModelContainer 4 (by decide)).1
  · obtain ⟨c, h1, h2, h3, -⟩ := (C8_open_model (initFromNode .ImageModel ⟨.WfiImage, []⟩ 0)
      .DataModelBase 1 (by decide)).2 (by decide) (by decide)
    exact ⟨c, h1, h2, h3⟩

/-- C2 counterexample: on a model whose node has an attribute named
`save`, getting `save` returns the `DataModel.save` method found on the
wrapper class, not the node's value `7`. -/
theorem C2_counterexample :
    startsUnderscore "save" = false ∧
    getattrModel (initFromNode .ImageModel ⟨.WfiImage, [("save", 7)]⟩ 0) "save" =
      some (.classAttr "save") ∧
    nodeAttrLookup (some ⟨.WfiImage, [("save", 7)]⟩) "save" = some 7 ∧
    some (PyVal.classAttr "save") ≠ some (PyVal.nat 7) := by decide

/-- C2 (amended): for non-underscore names that are not attributes of the
wrapper class itself, getting forwards to the underlying node; setting any
non-underscore name writes through to the node (when `_instance` is a
node); setting an underscore name stores the value on the wrapper object
and leaves the underlying node unchanged. -/
theorem C2_attr_forwarding (m : DataModel) (a b : String) (v w : Nat)
    (ha : startsUnderscore a = false) (hb : startsUnderscore b = true) :
    (a ∉ classAttrs m.cls →
      getattrModel m a = (nodeAttrLookup m.instanceNode a).map PyVal.nat) ∧
    (∀ n, m.instanceNode = some n →
      setattrModel m a v =
        .ok { m with instanceNode := some { n with attrs := alistInsert a v n.attrs } }) ∧
    (setattrModel m b w = .ok { m with wrapperDict := alistInsert b w m.wrapperDict } ∧
      ({ m with wrapperDict := alistInsert b w m.wrapperDict } : DataModel).instanceNode
        = m.instanceNode) := by
  refine ⟨?_, ?_, ?_, rfl⟩
  · intro hcls
    simp [getattrModel, ha, hcls]
  · intro n hn
    simp [setattrModel, ha, hn]
  · simp [setattrModel, hb]

/-- Witness for C2 at a concrete image model with a `data` attribute. -/
theorem C2_attr_forwarding_witness :
    getattrModel (initFromNode .ImageModel ⟨.WfiImage, [("data", 3)]⟩ 0) "data" =
      some (.nat 3) ∧
    setattrModel (initFromNode .ImageModel ⟨.WfiImage, [("data", 3)]⟩ 0) "data" 4 =
      .ok { initFromNode .ImageModel ⟨.WfiImage, [("data", 3)]⟩ 0 with
              instanceNode := some ⟨.WfiImage, [("data", 4)]⟩ } ∧
    setattrModel (initFromNode .ImageModel ⟨.WfiImage, [("data", 3)]⟩ 0) "_shape" 9 =
      .ok { initFromNode .ImageModel ⟨.WfiImage, [("data", 3)]⟩ 0 with
              wrapperDict := [("_shape", 9)] } := by
  refine ⟨?_, ?_, ?_⟩
  · exact ((C2_attr_forwarding (initFromNode .ImageModel ⟨.WfiImage, [("data", 3)]⟩ 0)
      "data" "_shape" 4 9 rfl rfl).1 (by decide))
  · exact ((C2_attr_forwarding (initFromNode .ImageModel ⟨.WfiImage, [("data", 3)]⟩ 0)
      "data" "_shape" 4 9 rfl rfl).2.1 ⟨.WfiImage, [("data", 3)]⟩ rfl)
  · exact ((C2_attr_forwarding (initFromNode .ImageModel ⟨.WfiImage, [("data", 3)]⟩ 0)
      "data" "_shape" 4 9 rfl rfl).2.2.1)

/-- C1 counterexample: `DataModel.__init__` accepts any tagged node with
no type check, so a plain `DataModel` wrapping a `WfiImage` node saves
fine, but re-opening the written file yields an `ImageModel` — not a model
of the same wrapper class. -/
theorem C1_counterexample :
    saveModel (initFromNode .DataModelBase ⟨.WfiImage, []⟩ 0) "f.asdf" none [] =
      .ok ("f.asdf", [("f.asdf", [("roman", some ⟨.WfiImage, []⟩)])]) ∧
    openFromPath [("f.asdf", [("roman", some ⟨.WfiImage, []⟩)])] "f.asdf" none 1 =
      .ok (some { cls := .ImageModel, oid := 1, iscopy := false,
                  instanceNode := some ⟨.WfiImage, []⟩,
                  asdfFile := some { tree := [("roman", some ⟨.WfiImage, []⟩)], closed := false },
                  wrapperDict := [] }, 2) ∧
    ModelClass.ImageModel ≠ ModelClass.DataModelBase := by
  refine ⟨rfl, rfl, by decide⟩

/-- C1 (amended): saving a model built over a tagged node to an `.asdf`
path writes a file whose tree maps `roman` to that instance, and
re-opening the written file yields a model whose underlying instance
equals the saved one and whose class is the one `model_registry` assigns
to the instance's node type (hence the same wrapper class exactly when the
saved model's class is the registered one, or `DataModel` for an
unregistered type); node types registered to `ModelContainer` are
excluded, since re-opening those raises. -/
theorem C1_save_open_roundtrip (cls : ModelClass) (n : TaggedObjectNode)
    (fs : FS) (path : String) (σ σ' : Nat)
    (hn : n.ntype ≠ .ModelContainerNode)
    (hext : (splitext (posixSplit path).2).2 = ".asdf") :
    ∃ out fs',
      saveModel (initFromNode cls n σ) path none fs = .ok (out, fs') ∧
      fsLookup fs' out = some [("roman", some n)] ∧
      ∃ dm, openFromPath fs' out none σ' = .ok (some dm, σ' + 1) ∧
        dm.cls = (model_registry n.ntype).getD .DataModelBase ∧
        dm.instanceNode = some n := by
  refine ⟨posixJoin (posixSplit path).1 (posixSplit path).2,
    alistInsert (posixJoin (posixSplit path).1 (posixSplit path).2)
      [("roman", some n)] fs, ?_, ?_, ?_⟩
  · simp [saveModel, savePath, hext, to_asdf, initFromNode]
  · exact alistLookup_insert_self _ _ _
  · have hfs : fsLookup
        (alistInsert (posixJoin (posixSplit path).1 (posixSplit path).2) [("roman", some n)] fs)
        (posixJoin (posixSplit path).1 (posixSplit path).2) = some [("roman", some n)] :=
      alistLookup_insert_self _ _ _
    rcases hreg : model_registry n.ntype with _ | mc
    · refine Exists.intro
        { cls := .DataModelBase, oid := σ', iscopy := false, instanceNode := some n,
          asdfFile := some { tree := [("roman", some n)], closed := false },
          wrapperDict := [] } ⟨?_, by simp [hreg], rfl⟩
      simp [openFromPath, hfs, openDispatch, treeLookup, alistLookup,
        registryLookup, hreg, initFromAsdfFile]
    · have hmc : mc ≠ .ModelContainer := by
        intro h
        exact hn ((model_registry_container_iff n.ntype).mp (h ▸ hreg))
      refine Exists.intro
        { cls := mc, oid := σ', iscopy := false, instanceNode := some n,
          asdfFile := some { tree := [("roman", some n)], closed := false },
          wrapperDict := [] } ⟨?_, by simp [hreg], rfl⟩
      simp [openFromPath, hfs, openDispatch, treeLookup, alistLookup,
        registryLookup, hreg, constructModel, hmc, initFromAsdfFile]

/-- Witness for C1: saving an `ImageModel` over a `WfiImage` node to
`f.asdf` and re-opening it. -/
theorem C1_save_open_roundtrip_witness :
    NodeType.WfiImage ≠ NodeType.ModelContainerNode ∧
    (splitext (posixSplit "f.asdf").2).2 = ".asdf" ∧
    ∃ out fs',
      saveModel (initFromNode .ImageModel ⟨.WfiImage, []⟩ 0) "f.asdf" none [] = .ok (out, fs') ∧
      fsLookup fs' out = some [("roman", some ⟨.WfiImage, []⟩)] ∧
      ∃ dm, openFromPath fs' out none 1 = .ok (some dm, 2) ∧
        dm.cls = (model_registry NodeType.WfiImage).getD .DataModelBase ∧
        dm.instanceNode = some ⟨.WfiImage, []⟩ := by
  exact ⟨by decide, by decide,
    C1_save_open_roundtrip .ImageModel ⟨.WfiImage, []⟩ [] "f.asdf" 0 1 (by decide) (by decide)⟩

/-- C4 counterexample: `DataModel.save` on a non-`.asdf` extension raises
a `ValueError` defined by the repository itself (datamodels.py line 159),
not an error surfaced from the external validation library. -/
theorem C4_counterexample :
    saveModel (initFromNode .ImageModel ⟨.WfiImage, []⟩ 0) "f.txt" none [] =
      .error (.valueError "unknown filetype .txt") ∧
    errFromValidationLib (.valueError "unknown filetype .txt") = false := by
  exact ⟨rfl, rfl⟩

/-- C4 (amended): the repository defines error conditions of its own —
`save` raises `ValueError` for unknown extensions, `__init__` raises
`IOError` for unrecognized arguments and `ValueError` for a missing
`roman` key, and `adaptor_factory` raises `NotImplementedError` for
unsupported tags — none of which come from the external validation
library. -/
theorem C4_repo_defined_errors :
    (saveModel (initFromNode .ImageModel ⟨.WfiImage, []⟩ 0) "f.txt" none [] =
        .error (.valueError "unknown filetype .txt") ∧
      errFromValidationLib (.valueError "unknown filetype .txt") = false) ∧
    (dataModelInit .ImageModel .other [] 0 =
        .error (.ioError "Argument does not appear to be an ASDF file or TaggedObjectNode.") ∧
      errFromValidationLib
        (.ioError "Argument does not appear to be an ASDF file or TaggedObjectNode.") = false) ∧
    (dataModelInit .ImageModel (.path "c.asdf") [("c.asdf", [])] 0 =
        .error (.valueError "ASDF file does not have expected \"roman\" attribute") ∧
      errFromValidationLib
        (.valueError "ASDF file does not have expected \"roman\" attribute") = false) ∧
    (adaptor_factory
        { tag := some "tag:foo/bar-1.0.0", extras := ⟨none, none, none⟩,
          enum := none, properties := none }
        { typeStr := "", importFromMod := none, importItems := none } =
        .error (.notImplementedError "Unsupported tag: tag:foo/bar-1.0.0") ∧
      errFromValidationLib (.notImplementedError "Unsupported tag: tag:foo/bar-1.0.0") = false) := by
  refine ⟨⟨rfl, rfl⟩, ⟨rfl, rfl⟩, ⟨rfl, rfl⟩, ⟨rfl, rfl⟩⟩

/-- C6: `has_adaptor` returns `False` when the object's tag is `None` and
otherwise returns `True` exactly when the version-stripped tag is a
supported adaptor tag; `adaptor_factory` returns a `DataType` for every
(well-formed) object whose version-stripped tag is one of the four handled
adaptor families and raises `NotImplementedError` for every other tag. -/
theorem C6_adaptor_dispatch (obj : RadSchemaObject) (dt : DataTypeM) :
    (obj.tag = none → has_adaptor obj = false) ∧
    (∀ t, obj.tag = some t → (has_adaptor obj = true ↔ removeUriVersion t ∈ ASDF_TAGS)) ∧
    (∀ t, obj.tag = some t → removeUriVersion t ∈ ASDF_TAGS → wellFormedObj obj = true →
      isOkE (adaptor_factory obj dt) = true) ∧
    (∀ t, obj.tag = some t → removeUriVersion t ∉ ASDF_TAGS →
      adaptor_factory obj dt = .error (.notImplementedError ("Unsupported tag: " ++ t))) := by
  have dNdTime : removeUriVersion (tagValue .ND_ARRAY) ≠ removeUriVersion (tagValue .ASTROPY_TIME) := by decide
  have dNdQ : removeUriVersion (tagValue .ND_ARRAY) ≠ removeUriVersion (tagValue .ASTROPY_QUANTITY) := by decide
  have dAuTime : removeUriVersion (tagValue .ASTROPY_UNIT) ≠ removeUriVersion (tagValue .ASTROPY_TIME) := by decide
  have dAuNd : removeUriVersion (tagValue .ASTROPY_UNIT) ≠ removeUriVersion (tagValue .ND_ARRAY) := by decide
  have dAuQ : removeUriVersion (tagValue .ASTROPY_UNIT) ≠ removeUriVersion (tagValue .ASTROPY_QUANTITY) := by decide
  have dAsuTime : removeUriVersion (tagValue .ASDF_UNIT) ≠ removeUriVersion (tagValue .ASTROPY_TIME) := by decide
  have dAsuNd : removeUriVersion (tagValue .ASDF_UNIT) ≠ removeUriVersion (tagValue .ND_ARRAY) := by decide
  have dAsuQ : removeUriVersion (tagValue .ASDF_UNIT) ≠ removeUriVersion (tagValue .ASTROPY_QUANTITY) := by decide
  have dQTime : removeUriVersion (tagValue .ASTROPY_QUANTITY) ≠ removeUriVersion (tagValue .ASTROPY_TIME) := by decide
  have dQNd : removeUriVersion (tagValue .ASTROPY_QUANTITY) ≠ removeUriVersion (tagValue .ND_ARRAY) := by decide
  have dQAu : removeUriVersion (tagValue .ASTROPY_QUANTITY) ≠ removeUriVersion (tagValue .ASTROPY_UNIT) := by decide
  have dQAsu : removeUriVersion (tagValue .ASTROPY_QUANTITY) ≠ removeUriVersion (tagValue .ASDF_UNIT) := by decide
  refine ⟨?_, ?_, ?_, ?_⟩
  · intro h
    simp [has_adaptor, h]
  · intro t ht
    simp [has_adaptor, ht]
  · intro t ht hmem hwf
    simp only [ASDF_TAGS, List.mem_cons, List.not_mem_nil, or_false] at hmem
    rcases hmem with h1 | h2 | h3 | h4 | h5
    · simp [adaptor_factory, ht, h1, isOkE]
    · simp only [wellFormedObj, ht, h2, if_neg dNdQ] at hwf
      rcases hds : obj.extras.default_shape with _ | ds
      · simp [hds] at hwf
      · simp [adaptor_factory, ht, h2, dNdTime, hds, isOkE]
    · simp [adaptor_factory, ht, h3, dAuTime, dAuNd, isOkE]
    · simp [adaptor_factory, ht, h4, dAsuTime, dAsuNd, isOkE]
    · rcases hp : obj.properties with _ | props
      · simp [wellFormedObj, ht, h5, dQNd, hp] at hwf
      · simp only [wellFormedObj, ht, h5, if_neg dQNd, hp] at hwf
        rcases hde : props.datatypeEnum with _ | es
        · simp only [hde] at hwf
          rcases hv : props.value with _ | _ | e
          · simp [hv] at hwf
          · simp [adaptor_factory, ht, h5, dQTime, dQNd, dQAu, dQAsu, hp,
              quantityFactory, hde, hv, isOkE]
          · rcases hds : e.default_shape with _ | ds <;>
              rcases hdt : e.datatype with _ | d <;>
              simp [adaptor_factory, ht, h5, dQTime, dQNd, dQAu, dQAsu, hp,
                quantityFactory, hde, hv, ndarrayFactory, hds, hdt, isOkE]
        · simp only [hde] at hwf
          rcases es with _ | ⟨e, rest⟩
          · simp at hwf
          · simp [adaptor_factory, ht, h5, dQTime, dQNd, dQAu, dQAsu, hp,
              quantityFactory, hde, isOkE]
  · intro t ht hmem
    simp only [ASDF_TAGS, List.mem_cons, List.not_mem_nil, or_false, not_or] at hmem
    obtain ⟨h1, h2, h3, h4, h5⟩ := hmem
    simp [adaptor_factory, ht, h1, h2, h3, h4, h5]

/-- Witness for C6 at a time-tagged, an ndarray-tagged and an unsupported
schema object. -/
theorem C6_adaptor_dispatch_witness :
    has_adaptor
      { tag := some "tag:stsci.edu:asdf/time/time-1.1.0", extras := ⟨none, none, none⟩,
        enum := none, properties := none } = true ∧
    isOkE (adaptor_factory
      { tag := some "tag:stsci.edu:asdf/time/time-1.1.0", extras := ⟨none, none, none⟩,
        enum := none, properties := none }
      { typeStr := "", importFromMod := none, importItems := none }) = true ∧
    isOkE (adaptor_factory
      { tag := some "tag:stsci.edu:asdf/core/ndarray-1.0.0",
        extras := ⟨some "float32", some 2, some [4096, 4096]⟩,
        enum := none, properties := none }
      { typeStr := "", importFromMod := none, importItems := none }) = true ∧
    adaptor_factory
      { tag := some "tag:stsci.edu:asdf/fits/fits-1.0.0", extras := ⟨none, none, none⟩,
        enum := none, properties := none }
      { typeStr := "", importFromMod := none, importItems := none } =
      .error (.notImplementedError "Unsupported tag: tag:stsci.edu:asdf/fits/fits-1.0.0") := by
  refine ⟨?_, ?_, ?_, ?_⟩
  · exact ((C6_adaptor_dispatch
      { tag := some "tag:stsci.edu:asdf/time/time-1.1.0", extras := ⟨none, none, none⟩,
        enum := none, properties := none }
      { typeStr := "", importFromMod := none, importItems := none }).2.1
      "tag:stsci.edu:asdf/time/time-1.1.0" rfl).mpr (by decide)
  · exact (C6_adaptor_dispatch
      { tag := some "tag:stsci.edu:asdf/time/time-1.1.0", extras := ⟨none, none, none⟩,
        enum := none, properties := none }
      { typeStr := "", importFromMod := none, importItems := none }).2.2.1
      "tag:stsci.edu:asdf/time/time-1.1.0" rfl (by decide) (by decide)
  · exact (C6_adaptor_dispatch
      { tag := some "tag:stsci.edu:asdf/core/ndarray-1.0.0",
        extras := ⟨some "float32", some 2, some [4096, 4096]⟩,
        enum := none, properties := none }
      { typeStr := "", importFromMod := none, importItems := none }).2.2.1
      "tag:stsci.edu:asdf/core/ndarray-1.0.0" rfl (by decide) (by decide)
  · exact (C6_adaptor_dispatch
      { tag := some "tag:stsci.edu:asdf/fits/fits-1.0.0", extras := ⟨none, none, none⟩,
        enum := none, properties := none }
      { typeStr := "", importFromMod := none, importItems := none }).2.2.2
      "tag:stsci.edu:asdf/fits/fits-1.0.0" rfl (by decide)

end RomanDatamodels
